import Mathlib

/-!
Shallow embedding of `src/gpu/locks.rs` from the bellman repository:
the priority-signal gate (`PriorityLock::should_break`) and the generic
preemptible kernel wrapper generated by the `locked_kernel!` macro
(`new`, `free`, `with`), together with the error type they use.
-/

namespace Bellman

/-- The GPU error type used by the wrapper. `locks.rs` itself only uses the
`GPUTaken` variant (`src/gpu/error.rs` is not part of the sources; the
variant `Simple`, standing for any other error kind, is modelled from the
spec: "All other error kinds from the collaborator's operation pass
through untouched"). -/
inductive GPUError
  | GPUTaken
  | Simple (msg : String)
  deriving DecidableEq, Repr

/-- `GPUResult<R>` from the source: `Result<R, GPUError>`. -/
abbrev GPUResult (R : Type) := Except GPUError R

/-- The state of the outside world that `PriorityLock::should_break`
consults: whether another handle currently holds the OS advisory lock on
the priority-signal file, and whether `File::create` on that file would
succeed (its failure makes the `.unwrap()` in the source panic). -/
structure LockWorld where
  priorityHeld : Bool
  createOk : Bool
  deriving DecidableEq, Repr

/-- Filesystem-level actions `should_break` can perform on the
priority-signal lock file, in order: creating/opening the file, the
outcome of `try_lock_exclusive`, and the implicit advisory-lock release
when the temporary `File` handle is dropped at the end of the
expression. -/
inductive FsOp
  | create
  | tryLockAcquired
  | tryLockFailed
  | release
  deriving DecidableEq, Repr

/-- Outcome of one `should_break` call: `result = none` models the panic
of the `.unwrap()` when `File::create` fails; `world` is the state of the
priority-signal lock after the call; `ops` the filesystem actions taken. -/
structure ShouldBreakResult where
  result : Option Bool
  world : LockWorld
  ops : List FsOp
  deriving DecidableEq, Repr

namespace PriorityLock

/-- `PriorityLock::should_break` from `locks.rs`:
`!priority && File::create(tmp_path(PRIORITY_LOCK_NAME)).unwrap().try_lock_exclusive().is_err()`.
Rust's `&&` short-circuits, so with `priority = true` nothing touches the
filesystem. Otherwise the file is created (panicking if that fails) and a
non-blocking exclusive lock is attempted; on success the handle is a
temporary dropped at once, releasing the advisory lock again. -/
def should_break (priority : Bool) (w : LockWorld) : ShouldBreakResult :=
  if priority then
    ⟨some false, w, []⟩
  else if w.createOk then
    if w.priorityHeld then
      ⟨some true, w, [FsOp.create, FsOp.tryLockFailed, FsOp.release]⟩
    else
      ⟨some false, { w with priorityHeld := false },
        [FsOp.create, FsOp.tryLockAcquired, FsOp.release]⟩
  else
    ⟨none, w, [FsOp.create]⟩

end PriorityLock

/-- The struct generated by `locked_kernel!`: an immutable priority flag
and an optional cached kernel (`LockedFFTKernel` / `LockedMultiexpKernel`
instantiate it at the two concrete kernel types). -/
structure LockedKernel (K : Type) where
  priority : Bool
  kernel : Option K
  deriving DecidableEq, Repr

namespace LockedKernel

/-- `new(priority)` from the macro expansion: stores the flag, no kernel. -/
def new (K : Type) (priority : Bool) : LockedKernel K :=
  { priority := priority, kernel := none }

/-- `free(&mut self)`: `self.kernel.take()` always leaves the cache
absent; the warning is logged only when a kernel was present. -/
def free (s : LockedKernel K) : LockedKernel K :=
  { s with kernel := none }

/-- Everything observable about one `with` call: the returned
`GPUResult`, the state of `self` afterwards, whether the construction
collaborator (`create_fft_kernel` / `create_multiexp_kernel`, the
macro's `$func`) was invoked, and whether the caller's closure `f` was
invoked. -/
structure WithResult (K R : Type) where
  res : GPUResult R
  state : LockedKernel K
  constructCalled : Bool
  opInvoked : Bool

/-- First phase of `with`, the statement
`if PriorityLock::should_break(self.priority) { self.free(); }
 else if self.kernel.is_none() { self.kernel = $func::<E>(self.priority); }`
given the boolean the gate returned. Also reports whether `$func` was
called. -/
def phase1 (s : LockedKernel K) (gateYield : Bool)
    (construct : Bool → Option K) : LockedKernel K × Bool :=
  if gateYield then
    (s.free, false)
  else if s.kernel.isNone then
    ({ s with kernel := construct s.priority }, true)
  else
    (s, false)

/-- Second phase of `with`:
`if let Some(ref mut k) = self.kernel { let res = f(k);
 if let Err(GPUError::GPUTaken) = res { self.free(); } res }
 else { Err(GPUError::GPUTaken) }`.
The closure `f` receives `&mut k`, so it is modelled as returning the
result together with the mutated kernel. -/
def phase2 (s : LockedKernel K) (constructCalled : Bool)
    (f : K → GPUResult R × K) : WithResult K R :=
  match s.kernel with
  | some k =>
    let fr := f k
    let s2 : LockedKernel K := { s with kernel := some fr.2 }
    match fr.1 with
    | Except.error GPUError.GPUTaken =>
      ⟨fr.1, s2.free, constructCalled, true⟩
    | _ =>
      ⟨fr.1, s2, constructCalled, true⟩
  | none =>
    ⟨Except.error GPUError.GPUTaken, s, constructCalled, false⟩

/-- `with(&mut self, f)` from the macro expansion, composed of the gate
query and the two phases. `none` models the panic propagated out of
`should_break` when the lock file cannot be created. -/
def withKernel (s : LockedKernel K) (w : LockWorld)
    (construct : Bool → Option K) (f : K → GPUResult R × K) :
    Option (WithResult K R) :=
  match (PriorityLock.should_break s.priority w).result with
  | none => none
  | some gateYield =>
    let p := phase1 s gateYield construct
    some (phase2 p.1 p.2 f)

end LockedKernel

end Bellman

namespace Bellman

open LockedKernel

/-- Helper: when the gate reports yield, `with` frees the cache, never
calls the construction collaborator (the `else if` is skipped), never
invokes the operation, and returns `Err(GPUError::GPUTaken)`. -/
theorem withKernel_of_yield {K R : Type}
    (s : LockedKernel K) (w : LockWorld) (construct : Bool → Option K)
    (f : K → GPUResult R × K)
    (hg : (PriorityLock.should_break s.priority w).result = some true) :
    LockedKernel.withKernel s w construct f =
      some ⟨Except.error GPUError.GPUTaken, { s with kernel := none },
        false, false⟩ := by
  unfold LockedKernel.withKernel
  rw [hg]
  simp [phase1, phase2, free]

/-- Helper: `phase1` never changes the priority flag. -/
theorem phase1_priority {K : Type} (s : LockedKernel K) (gy : Bool)
    (construct : Bool → Option K) :
    (phase1 s gy construct).1.priority = s.priority := by
  unfold phase1 free
  split
  · rfl
  · split <;> rfl

/-- Helper: `phase2` never changes the priority flag. -/
theorem phase2_priority {K R : Type} (s : LockedKernel K) (cc : Bool)
    (f : K → GPUResult R × K) :
    (phase2 s cc f).state.priority = s.priority := by
  unfold phase2 free
  cases hk : s.kernel with
  | none => rfl
  | some k =>
    simp only
    split <;> rfl

/-- C1 counterexample: with `priority = false`, a present cached kernel,
the priority lock held by another handle (so the gate signals yield) and
a construction collaborator that would return a kernel, the `with` call
destroys the cache but never calls the collaborator (`constructCalled`
is `false` and the cache stays absent), refuting the claim that the call
"still proceeds to step 2" and attempts construction. -/
theorem c1_counterexample :
    (PriorityLock.should_break false ⟨true, true⟩).result = some true ∧
    (LockedKernel.withKernel (R := Nat) ⟨false, some 0⟩ ⟨true, true⟩
        (fun _ => some 1) (fun k => (Except.ok 0, k))).map
      (fun r => (r.constructCalled, r.state.kernel)) = some (false, none) :=
  ⟨rfl, rfl⟩

/-- C1 (amended): for every `with` call in which the gate signals yield,
the call destroys any present cached kernel and does not proceed to the
construction step in that same call — `construct` is never invoked, the
operation is never invoked, and the call returns the
`GPUTaken` failure with the cache left absent. -/
theorem c1_yield_skips_construction {K R : Type}
    (s : LockedKernel K) (w : LockWorld) (construct : Bool → Option K)
    (f : K → GPUResult R × K)
    (hg : (PriorityLock.should_break s.priority w).result = some true) :
    LockedKernel.withKernel s w construct f =
      some ⟨Except.error GPUError.GPUTaken, { s with kernel := none },
        false, false⟩ :=
  withKernel_of_yield s w construct f hg

/-- C1 witness: the amended theorem at a concrete input. -/
theorem c1_yield_skips_construction_witness :
    (PriorityLock.should_break
        (Bellman.LockedKernel.mk false (some 0)).priority ⟨true, true⟩).result
      = some true ∧
    LockedKernel.withKernel (R := Nat) ⟨false, some 0⟩ ⟨true, true⟩
        (fun _ => some 1) (fun k => (Except.ok 0, k)) =
      some ⟨Except.error GPUError.GPUTaken, ⟨false, none⟩, false, false⟩ :=
  ⟨rfl, c1_yield_skips_construction ⟨false, some 0⟩ ⟨true, true⟩
    (fun _ => some 1) (fun k => (Except.ok 0, k)) rfl⟩

/-- C2: when the cached kernel is present, the gate does not signal
yield, and the operation returns `Err(GPUError::GPUTaken)`, the cached
kernel is destroyed before the call returns and that same error is
returned to the caller unchanged. -/
theorem c2_resource_taken_teardown {K R : Type}
    (s : LockedKernel K) (w : LockWorld) (construct : Bool → Option K)
    (f : K → GPUResult R × K) (k : K)
    (hk : s.kernel = some k)
    (hg : (PriorityLock.should_break s.priority w).result = some false)
    (hf : (f k).1 = Except.error GPUError.GPUTaken) :
    LockedKernel.withKernel s w construct f =
      some ⟨Except.error GPUError.GPUTaken, { s with kernel := none },
        false, true⟩ := by
  unfold LockedKernel.withKernel
  rw [hg]
  simp only [phase1, phase2, free, hk, Option.isNone_some, Bool.false_eq_true,
    if_false, ite_false]
  rw [hf]

/-- C2 witness: the theorem at a concrete input. -/
theorem c2_resource_taken_teardown_witness :
    (Bellman.LockedKernel.mk false (some 7)).kernel = some 7 ∧
    (PriorityLock.should_break
        (Bellman.LockedKernel.mk false (some 7)).priority ⟨false, true⟩).result
      = some false ∧
    LockedKernel.withKernel (R := Nat) ⟨false, some 7⟩ ⟨false, true⟩
        (fun _ => none)
        (fun k => (Except.error GPUError.GPUTaken, k)) =
      some ⟨Except.error GPUError.GPUTaken, ⟨false, none⟩, false, true⟩ :=
  ⟨rfl, rfl, c2_resource_taken_teardown ⟨false, some 7⟩ ⟨false, true⟩
    (fun _ => none) (fun k => (Except.error GPUError.GPUTaken, k)) 7
    rfl rfl rfl⟩

/-- C3: whenever the cached kernel is still absent after the
construction phase (in particular when `construct` returns `none`), the
call returns the `GPUTaken` failure — the same error identity used when
the device was taken — without ever invoking the operation, and the
state is exactly the post-construction-phase state. -/
theorem c3_unavailable_no_invoke {K R : Type}
    (s : LockedKernel K) (w : LockWorld) (construct : Bool → Option K)
    (f : K → GPUResult R × K) (gy : Bool)
    (hg : (PriorityLock.should_break s.priority w).result = some gy)
    (habs : (phase1 s gy construct).1.kernel = none) :
    LockedKernel.withKernel s w construct f =
      some ⟨Except.error GPUError.GPUTaken, (phase1 s gy construct).1,
        (phase1 s gy construct).2, false⟩ := by
  unfold LockedKernel.withKernel
  rw [hg]
  simp only [phase2, habs]

/-- C3 witness: with `construct` constantly `none` and an empty cache the
call fails with `GPUTaken` and never runs the operation. -/
theorem c3_unavailable_no_invoke_witness :
    (PriorityLock.should_break
        (LockedKernel.new Nat false).priority ⟨false, true⟩).result
      = some false ∧
    (phase1 (LockedKernel.new Nat false) false
        (fun _ => (none : Option Nat))).1.kernel = none ∧
    LockedKernel.withKernel (R := Nat) (LockedKernel.new Nat false)
        ⟨false, true⟩ (fun _ => none) (fun k => (Except.ok 0, k)) =
      some ⟨Except.error GPUError.GPUTaken, ⟨false, none⟩, true, false⟩ :=
  ⟨rfl, rfl, c3_unavailable_no_invoke (LockedKernel.new Nat false)
    ⟨false, true⟩ (fun _ => none) (fun k => (Except.ok 0, k)) false rfl rfl⟩

/-- C4: `should_break(true)` returns `false` in every state of the
priority-signal lock (held or not, file creatable or not). -/
theorem c4_gate_self_exemption (w : LockWorld) :
    (PriorityLock.should_break true w).result = some false := rfl

/-- C5: provided the lock file can be created, `should_break(false)`
returns `true` exactly when the priority-signal lock is held by another
handle; when it is not held, the call returns `false` and its momentary
acquisition is released before returning, leaving the lock unheld. -/
theorem c5_gate_detection (w : LockWorld) (hc : w.createOk = true) :
    (w.priorityHeld = true →
      (PriorityLock.should_break false w).result = some true) ∧
    (w.priorityHeld = false →
      (PriorityLock.should_break false w).result = some false ∧
      (PriorityLock.should_break false w).world.priorityHeld = false) := by
  unfold PriorityLock.should_break
  cases hh : w.priorityHeld <;> simp [hc, hh]

/-- C5 witness: the theorem at both a held and an unheld lock state. -/
theorem c5_gate_detection_witness :
    (PriorityLock.should_break false ⟨true, true⟩).result = some true ∧
    (PriorityLock.should_break false ⟨false, true⟩).result = some false ∧
    (PriorityLock.should_break false ⟨false, true⟩).world.priorityHeld
      = false :=
  ⟨(c5_gate_detection ⟨true, true⟩ rfl).1 rfl,
   ((c5_gate_detection ⟨false, true⟩ rfl).2 rfl).1,
   ((c5_gate_detection ⟨false, true⟩ rfl).2 rfl).2⟩

/-- C6: with `priority = false` and a present cached kernel, if the gate
signals yield then the `with` call never invokes the operation on the
cached kernel and leaves the cache absent afterwards. -/
theorem c6_preemption_collapses_cache {K R : Type}
    (s : LockedKernel K) (w : LockWorld) (construct : Bool → Option K)
    (f : K → GPUResult R × K) (k : K)
    (hp : s.priority = false) (hk : s.kernel = some k)
    (hg : (PriorityLock.should_break s.priority w).result = some true) :
    LockedKernel.withKernel s w construct f =
      some ⟨Except.error GPUError.GPUTaken, { s with kernel := none },
        false, false⟩ := by
  unfold LockedKernel.withKernel
  rw [hg]
  simp [phase1, phase2, free]

/-- C6 witness: the theorem at a concrete input. -/
theorem c6_preemption_collapses_cache_witness :
    (Bellman.LockedKernel.mk false (some 5)).priority = false ∧
    (Bellman.LockedKernel.mk false (some 5)).kernel = some 5 ∧
    (PriorityLock.should_break
        (Bellman.LockedKernel.mk false (some 5)).priority ⟨true, true⟩).result
      = some true ∧
    LockedKernel.withKernel (R := Nat) ⟨false, some 5⟩ ⟨true, true⟩
        (fun _ => some 6) (fun k => (Except.ok 1, k)) =
      some ⟨Except.error GPUError.GPUTaken, ⟨false, none⟩, false, false⟩ :=
  ⟨rfl, rfl, rfl, c6_preemption_collapses_cache ⟨false, some 5⟩ ⟨true, true⟩
    (fun _ => some 6) (fun k => (Except.ok 1, k)) 5 rfl rfl rfl⟩

/-- Helper: when the cache holds `k` and the operation's result is not
`Err(GPUError::GPUTaken)`, `phase2` passes the result through and keeps
the (possibly mutated) kernel cached. -/
theorem phase2_of_not_taken {K R : Type} (s : LockedKernel K) (cc : Bool)
    (f : K → GPUResult R × K) (k : K) (hk : s.kernel = some k)
    (hf : (f k).1 ≠ Except.error GPUError.GPUTaken) :
    phase2 s cc f = ⟨(f k).1, { s with kernel := some (f k).2 }, cc, true⟩ := by
  unfold phase2
  simp only [hk]

/-- C7: when the cached kernel is present, the gate does not signal
yield, and the operation returns a success or an error other than
`GPUTaken`, that result is returned to the caller unchanged and the
cached kernel remains present (as the operation left it) after the
call. -/
theorem c7_other_results_pass_through {K R : Type}
    (s : LockedKernel K) (w : LockWorld) (construct : Bool → Option K)
    (f : K → GPUResult R × K) (k : K)
    (hk : s.kernel = some k)
    (hg : (PriorityLock.should_break s.priority w).result = some false)
    (hf : (f k).1 ≠ Except.error GPUError.GPUTaken) :
    LockedKernel.withKernel s w construct f =
      some ⟨(f k).1, { s with kernel := some (f k).2 }, false, true⟩ := by
  unfold LockedKernel.withKernel
  rw [hg]
  have h1 : phase1 s false construct = (s, false) := by
    simp [phase1, hk]
  simp only [h1]
  rw [phase2_of_not_taken s false f k hk hf]

/-- C7 witness: the theorem at a concrete success result. -/
theorem c7_other_results_pass_through_witness :
    (Bellman.LockedKernel.mk false (some 2)).kernel = some 2 ∧
    (PriorityLock.should_break
        (Bellman.LockedKernel.mk false (some 2)).priority ⟨false, true⟩).result
      = some false ∧
    (Except.ok 9 : GPUResult Nat) ≠ Except.error GPUError.GPUTaken ∧
    LockedKernel.withKernel (R := Nat) ⟨false, some 2⟩ ⟨false, true⟩
        (fun _ => none) (fun k => (Except.ok 9, k + 1)) =
      some ⟨Except.ok 9, ⟨false, some 3⟩, false, true⟩ :=
  ⟨rfl, rfl, by simp,
   c7_other_results_pass_through ⟨false, some 2⟩ ⟨false, true⟩
     (fun _ => none) (fun k => (Except.ok 9, k + 1)) 2 rfl rfl (by simp)⟩

/-- C8: the priority flag is set by `new` and never changed by `with`:
the state after any completed `with` call carries the same priority flag
as before, and `new` stores exactly the flag it was given. -/
theorem c8_priority_immutable {K R : Type} (p : Bool)
    (s : LockedKernel K) (w : LockWorld) (construct : Bool → Option K)
    (f : K → GPUResult R × K) (r : WithResult K R)
    (h : LockedKernel.withKernel s w construct f = some r) :
    r.state.priority = s.priority ∧ (LockedKernel.new K p).priority = p := by
  refine ⟨?_, rfl⟩
  unfold LockedKernel.withKernel at h
  cases hg : (PriorityLock.should_break s.priority w).result with
  | none => rw [hg] at h; exact absurd h (by simp)
  | some gy =>
    rw [hg] at h
    simp only [Option.some_inj] at h
    rw [← h, phase2_priority, phase1_priority]

/-- C8 witness: the theorem at a concrete completed call. -/
theorem c8_priority_immutable_witness :
    (Bellman.LockedKernel.WithResult.mk (Except.ok 0)
        ⟨false, some 0⟩ true true : WithResult Nat Nat).state.priority
      = (LockedKernel.new Nat false).priority ∧
    (LockedKernel.new Nat true).priority = true :=
  c8_priority_immutable true (LockedKernel.new Nat false) ⟨false, true⟩
    (fun _ => some 0) (fun k => (Except.ok 0, k))
    ⟨Except.ok 0, ⟨false, some 0⟩, true, true⟩ rfl

/-- Helper: a `phase2` outcome whose result is the `GPUTaken` error
always leaves the cache absent. -/
theorem phase2_kernel_of_taken {K R : Type} (s : LockedKernel K) (cc : Bool)
    (f : K → GPUResult R × K)
    (he : (phase2 s cc f).res = Except.error GPUError.GPUTaken) :
    (phase2 s cc f).state.kernel = none := by
  cases hk : s.kernel with
  | none => simp [phase2, hk]
  | some k =>
    cases hfe : (f k).1 with
    | ok r => simp [phase2, hk, hfe] at he
    | error e =>
      cases e with
      | GPUTaken => simp [phase2, hk, hfe, free]
      | Simple m => simp [phase2, hk, hfe] at he

/-- C9: whenever a completed `with` call returns the `GPUTaken` error —
because no kernel could be obtained or because the operation itself
reported it — the cached kernel is absent immediately after the call. -/
theorem c9_taken_implies_cache_absent {K R : Type}
    (s : LockedKernel K) (w : LockWorld) (construct : Bool → Option K)
    (f : K → GPUResult R × K) (r : WithResult K R)
    (h : LockedKernel.withKernel s w construct f = some r)
    (he : r.res = Except.error GPUError.GPUTaken) :
    r.state.kernel = none := by
  unfold LockedKernel.withKernel at h
  cases hg : (PriorityLock.should_break s.priority w).result with
  | none => rw [hg] at h; exact absurd h (by simp)
  | some gy =>
    rw [hg] at h
    simp only [Option.some_inj] at h
    rw [← h] at he ⊢
    exact phase2_kernel_of_taken _ _ _ he

/-- C9 witness: the theorem at a concrete call whose operation reports
`GPUTaken`. -/
theorem c9_taken_implies_cache_absent_witness :
    LockedKernel.withKernel (R := Nat) ⟨false, some 3⟩ ⟨false, true⟩
        (fun _ => none)
        (fun k => (Except.error GPUError.GPUTaken, k)) =
      some ⟨Except.error GPUError.GPUTaken, ⟨false, none⟩, false, true⟩ ∧
    (Bellman.LockedKernel.WithResult.mk (Except.error GPUError.GPUTaken)
        ⟨false, none⟩ false true : WithResult Nat Nat).state.kernel = none :=
  ⟨rfl, c9_taken_implies_cache_absent ⟨false, some 3⟩ ⟨false, true⟩
    (fun _ => none) (fun k => (Except.error GPUError.GPUTaken, k))
    ⟨Except.error GPUError.GPUTaken, ⟨false, none⟩, false, true⟩ rfl rfl⟩

/-- C10: `should_break(true)` short-circuits on the priority flag: it
performs no filesystem action at all (`ops = []`, so the lock file is
neither created nor try-locked), cannot reach the `unwrap` panic (the
result is always `some false`, never `none`), and leaves the lock-file
world unchanged. -/
theorem c10_priority_no_filesystem_effect (w : LockWorld) :
    PriorityLock.should_break true w = ⟨some false, w, []⟩ := rfl
